import Mathlib

/-!
Verification of the linear UVLM stepping core of `sharpy/solvers/steplinearuvlm.py`
(`StepLinearUVLM`): packing of state/input vectors, the one-step linear update,
unpacking of the results, and the lazy first-time initialisation.

Modelling conventions:
* numpy arrays are nested lists of rationals; a `(d1, d2, d3)` array is a
  `List (List (List Rat))`, a `(d1, d2)` array a `List (List Rat)`.
* `reshape(-1, order='C')` of a rectangular array is row-major flattening,
  leading axis slowest: `flatten3` / `List.flatten`.
* `AeroTimeStepInfo` keeps parallel per-surface lists (`zeta[i]`, `gamma[i]`, ...,
  one entry per surface, indexed by `range(n_surf)`); it is modelled as a single
  list of per-surface records, `List Surface`, with `n_surf` the list length.
* numpy slicing `v[a:a+n]` truncates silently (`slice`); `reshape` to a target
  shape raises `ValueError` unless the element count matches exactly
  (`reshape2`/`reshape3` return `none` in that case).
* scalar * vector and vector plus/minus vector are elementwise (`List.map`,
  `List.zipWith`); the operands always have equal length in the modelled code
  paths.
* Python exceptions are `Except String` / `Option` results.
* External collaborators (the assembled `linuvlm.Dynamic` operator, the velocity
  field generator) are parameters; the operator's `solve_step`, which is not
  under `src/`, is additionally modelled from the spec further below.
-/

abbrev Grid2 := List (List ℚ)

abbrev Grid3 := List (List (List ℚ))

/-- Row-major (C-order) flattening of a 3-axis array, leading axis slowest:
`np.ndarray.reshape(-1, order='C')` on a rectangular `(d1, d2, d3)` array. -/
def flatten3 (a : Grid3) : List ℚ :=
  (a.map List.flatten).flatten

/-- One aerodynamic surface of an `AeroTimeStepInfo`: the per-surface entries of
the parallel lists `zeta`, `zeta_dot`, `u_ext`, `gamma`, `gamma_dot`,
`gamma_star` and `forces`. -/
structure Surface where
  zeta : Grid3
  zeta_dot : Grid3
  u_ext : Grid3
  gamma : Grid2
  gamma_dot : Grid2
  gamma_star : Grid2
  forces : Grid3
deriving Repr, DecidableEq, Inhabited

/-- `np.concatenate([aero_tstep.gamma[ss].reshape(-1, order='C') for ss in
range(aero_tstep.n_surf)])`. -/
def gamma_vec (ts : List Surface) : List ℚ :=
  (ts.map fun s => s.gamma.flatten).flatten

/-- Concatenation of the flattened per-surface wake circulations `gamma_star`. -/
def gamma_star_vec (ts : List Surface) : List ℚ :=
  (ts.map fun s => s.gamma_star.flatten).flatten

/-- Concatenation of the flattened per-surface circulation rates `gamma_dot`. -/
def gamma_dot_vec (ts : List Surface) : List ℚ :=
  (ts.map fun s => s.gamma_dot.flatten).flatten

/-- Concatenation of the flattened per-surface vertex positions `zeta`. -/
def zeta_vec (ts : List Surface) : List ℚ :=
  (ts.map fun s => flatten3 s.zeta).flatten

/-- Concatenation of the flattened per-surface vertex velocities `zeta_dot`. -/
def zeta_dot_vec (ts : List Surface) : List ℚ :=
  (ts.map fun s => flatten3 s.zeta_dot).flatten

/-- Concatenation of the flattened per-surface external velocities `u_ext`. -/
def u_ext_vec (ts : List Surface) : List ℚ :=
  (ts.map fun s => flatten3 s.u_ext).flatten

/-- `np.concatenate([aero_tstep.forces[ss][0:3].reshape(-1, order='C') for ss in
range(aero_tstep.n_surf)])` (reference output `f_0`, line 165). -/
def forces_vec (ts : List Surface) : List ℚ :=
  (ts.map fun s => flatten3 (s.forces.take 3)).flatten

/-- `StepLinearUVLM.pack_input_vector` (lines 413-433): flattened `zeta` block,
then flattened `zeta_dot` block, then flattened `u_ext` block, each block the
surface-by-surface concatenation in surface index order. -/
def pack_input_vector (aero_tstep : List Surface) : List ℚ :=
  zeta_vec aero_tstep ++ zeta_dot_vec aero_tstep ++ u_ext_vec aero_tstep

/-- `StepLinearUVLM.pack_state_vector` (lines 436-493).  `aero_tstep_m1 = none`
models passing Python `None` (which is falsy; a timestep object is truthy).  In
the previous-snapshot branch the source iterates `ss in range(aero_tstep.n_surf)`
over `aero_tstep_m1.gamma`; this is `tm1.take ts.length` (for fewer surfaces in
`tm1` Python would raise `IndexError`; that path is never exercised since both
snapshots hold the same surfaces). -/
def pack_state_vector (aero_tstep : List Surface) (aero_tstep_m1 : Option (List Surface))
    (dt : ℚ) (integr_order : Int) : List ℚ :=
  let gamma := gamma_vec aero_tstep
  let gamma_star := gamma_star_vec aero_tstep
  let gamma_dot := gamma_dot_vec aero_tstep
  let gamma_m1 : List ℚ :=
    if integr_order = 1 then []
    else
      match aero_tstep_m1 with
      | some tm1 => gamma_vec (tm1.take aero_tstep.length)
      | none => List.zipWith (fun g gd => g - dt * gd) gamma gamma_dot
  gamma ++ gamma_star ++ gamma_dot.map (fun gd => dt * gd) ++ gamma_m1

/-- C1: `pack_state_vector` branches on the integration order: for order 1 the
state vector is `gamma ++ gamma_star ++ dt*gamma_dot` with no
previous-circulation block (length = panels + wake-panels + panels, whatever
previous snapshot is supplied); for order 2 a previous-circulation block is
appended, taken from the previous snapshot when one is supplied, and equal to
`gamma - dt*gamma_dot` when none is supplied. -/
theorem pack_state_vector_integr_order_branching
    (ts tm1 : List Surface) (p : Option (List Surface)) (dt : ℚ)
    (hlen : tm1.length = ts.length)
    (hdot : (gamma_dot_vec ts).length = (gamma_vec ts).length) :
    (pack_state_vector ts p dt 1
        = gamma_vec ts ++ gamma_star_vec ts ++ (gamma_dot_vec ts).map (fun g => dt * g)
      ∧ (pack_state_vector ts p dt 1).length
        = (gamma_vec ts).length + (gamma_star_vec ts).length + (gamma_vec ts).length)
    ∧ pack_state_vector ts (some tm1) dt 2
        = gamma_vec ts ++ gamma_star_vec ts ++ (gamma_dot_vec ts).map (fun g => dt * g)
          ++ gamma_vec tm1
    ∧ pack_state_vector ts none dt 2
        = gamma_vec ts ++ gamma_star_vec ts ++ (gamma_dot_vec ts).map (fun g => dt * g)
          ++ List.zipWith (fun g gd => g - dt * gd) (gamma_vec ts) (gamma_dot_vec ts) := by
  have h1 : pack_state_vector ts p dt 1
      = gamma_vec ts ++ gamma_star_vec ts ++ (gamma_dot_vec ts).map (fun g => dt * g) := by
    simp [pack_state_vector]
  refine ⟨⟨h1, ?_⟩, ?_, ?_⟩
  · simp [h1, hdot, Nat.add_assoc]
  · have : tm1.take ts.length = tm1 := by rw [← hlen]; exact List.take_length tm1
    simp [pack_state_vector, this]
  · simp [pack_state_vector]

/-- Witness for C1 at a concrete one-surface snapshot. -/
theorem pack_state_vector_integr_order_branching_witness :
    let s : Surface := { zeta := [], zeta_dot := [], u_ext := [],
                         gamma := [[1, 2]], gamma_dot := [[5, 6]], gamma_star := [[3]],
                         forces := [] }
    ([s].length = [s].length
      ∧ (gamma_dot_vec [s]).length = (gamma_vec [s]).length)
    ∧ (pack_state_vector [s] (some [s]) (1/2) 2
        = gamma_vec [s] ++ gamma_star_vec [s] ++ (gamma_dot_vec [s]).map (fun g => (1/2) * g)
          ++ gamma_vec [s]) := by
  intro s
  refine ⟨⟨rfl, by simp [gamma_vec, gamma_dot_vec]⟩, ?_⟩
  exact (pack_state_vector_integr_order_branching [s] [s] (some [s]) (1/2) rfl
    (by simp [gamma_vec, gamma_dot_vec])).2.1

/-- C10: `pack_state_vector` performs no validation of the integration order:
every order other than 1 takes the second-order branch, so the result coincides
with that for order 2. -/
theorem pack_state_vector_order_not_one_as_two
    (ts : List Surface) (p : Option (List Surface)) (dt : ℚ) (io : Int) (h : io ≠ 1) :
    pack_state_vector ts p dt io = pack_state_vector ts p dt 2 := by
  simp [pack_state_vector, h]

/-- Witness for C10 at integration order 0 on a concrete snapshot. -/
theorem pack_state_vector_order_not_one_as_two_witness :
    let s : Surface := { zeta := [], zeta_dot := [], u_ext := [],
                         gamma := [[1, 2]], gamma_dot := [[5, 6]], gamma_star := [[3]],
                         forces := [] }
    (0 : Int) ≠ 1 ∧ pack_state_vector [s] none (1/2) 0 = pack_state_vector [s] none (1/2) 2 := by
  intro s
  exact ⟨by decide, pack_state_vector_order_not_one_as_two [s] none (1/2) 0 (by decide)⟩

/-- C2: at the concrete one-surface 2x2-vertex scenario with `dt = 1/10`,
integration order 2, no previous snapshot, `gamma = [[1,2],[3,4]]`, zero
`gamma_dot`, and a 1x2 zero `gamma_star`, the packed state vector has length 14
and its last 4 entries are `[1, 2, 3, 4]`. -/
theorem pack_state_vector_concrete_scenario :
    let z3 : Grid3 := [[[0, 0], [0, 0]], [[0, 0], [0, 0]], [[0, 0], [0, 0]]]
    let s : Surface := { zeta := z3, zeta_dot := z3, u_ext := z3,
                         gamma := [[1, 2], [3, 4]], gamma_dot := [[0, 0], [0, 0]],
                         gamma_star := [[0, 0]],
                         forces := z3 ++ z3 }
    (pack_state_vector [s] none (1/10) 2).length = 14
    ∧ (pack_state_vector [s] none (1/10) 2).drop 10 = [1, 2, 3, 4] := by
  intro z3 s
  constructor <;>
    norm_num [pack_state_vector, gamma_vec, gamma_star_vec, gamma_dot_vec, List.zipWith]

/-- Contents of the `self.data.aero.linear` dictionary, restricted to the
reference triple (`x_0`, `u_0`, `y_0`).  The entries `System` and `SS` hold the
externally assembled operator (`linuvlm.Dynamic`, out of scope) and are not
carried here; the intended entries `gamma_0`, `gamma_star_0` and `gamma_dot_0`
are never successfully written by the source (see `initialise`). -/
structure AeroLinear where
  x_0 : List ℚ
  u_0 : List ℚ
  y_0 : List ℚ
deriving Repr, DecidableEq, Inhabited

/-- `StepLinearUVLM.initialise` (lines 108-187), first-time linearisation path.
`linear0` is the pre-existing `data.aero.linear` attribute (`none` models the
`AttributeError` branch: no linear system exists yet).  Returns the
`data.aero.linear` contents after the call together with the call outcome.

On the first initialisation the source builds the `linuvlm.Dynamic` operator
(external), computes `u_0 = pack_input_vector`, `x_0 = pack_state_vector` with
no previous snapshot, `f_0` from the first 3 force rows of every surface, and
stores them in the dictionary (lines 170-174).  Line 175
(`self.data.aero.linear['gamma_0'] = gamma`) then reads the local name `gamma`,
which is never defined anywhere in the method or module, so Python raises
`NameError`; the partially populated dictionary persists.  The velocity
generator initialisation (lines 184-187, external) is only reached when a
linear system already exists and is modelled as succeeding. -/
def initialise (linear0 : Option AeroLinear) (aero_tstep : List Surface)
    (dt : ℚ) (integr_order : Int) : Option AeroLinear × Except String Unit :=
  match linear0 with
  | some l => (some l, .ok ())
  | none =>
      let u_0 := pack_input_vector aero_tstep
      let x_0 := pack_state_vector aero_tstep none dt integr_order
      let f_0 := forces_vec aero_tstep
      (some { x_0 := x_0, u_0 := u_0, y_0 := f_0 },
       .error "NameError: name gamma is not defined")

/-- C3 (code bug): on a first initialisation (no `linear` attribute), the source
does store the reference triple (`x_0` via `pack_state_vector`, `u_0` via
`pack_input_vector`, `y_0` as the concatenated first 3 force rows), but then
raises `NameError` at line 175 (`... = gamma`, an undefined name), so
`initialise` never completes without raising, contradicting the claim. -/
theorem initialise_stores_triple_then_raises
    (ts : List Surface) (dt : ℚ) (io : Int) :
    initialise none ts dt io
      = (some { x_0 := pack_state_vector ts none dt io,
                u_0 := pack_input_vector ts,
                y_0 := forces_vec ts },
         .error "NameError: name gamma is not defined") := by
  rfl

/-- A rectangular 2-axis array: `r` rows, each of length `c`. -/
def Rect2 (a : Grid2) (r c : Nat) : Prop :=
  a.length = r ∧ ∀ row ∈ a, row.length = c

/-- A rectangular 3-axis array: `p` planes, each an `r` by `c` rectangle. -/
def Rect3 (a : Grid3) (p r c : Nat) : Prop :=
  a.length = p ∧ ∀ pl ∈ a, Rect2 pl r c

instance (a : Grid2) (r c : Nat) : Decidable (Rect2 a r c) :=
  inferInstanceAs (Decidable (_ ∧ _))

instance (a : Grid3) (p r c : Nat) : Decidable (Rect3 a p r c) :=
  inferInstanceAs (Decidable (_ ∧ _))

theorem flatten_length_uniform (a : Grid2) (c : Nat) (h : ∀ row ∈ a, row.length = c) :
    a.flatten.length = a.length * c := by
  induction a with
  | nil => simp
  | cons hd tl ih =>
      have hhd : hd.length = c := h hd (by simp)
      have htl := ih fun row hr => h row (by simp [hr])
      simp [hhd, htl, Nat.succ_mul, Nat.add_comm]

theorem flatten3_length (a : Grid3) (p r c : Nat) (h : Rect3 a p r c) :
    (flatten3 a).length = p * (r * c) := by
  obtain ⟨hp, hall⟩ := h
  have huni : ∀ l ∈ a.map List.flatten, l.length = r * c := by
    intro l hl
    obtain ⟨pl, hpl, rfl⟩ := List.mem_map.1 hl
    obtain ⟨h1, h2⟩ := hall pl hpl
    rw [flatten_length_uniform pl c h2, h1]
  rw [flatten3, flatten_length_uniform _ _ huni, List.length_map, hp]

theorem getD_mem {l : List ℚ} {k : Nat} (hk : k < l.length) : l.getD k 0 ∈ l := by
  rw [List.getD_eq_getElem?_getD, List.getElem?_eq_getElem hk]
  exact List.getElem_mem hk

theorem getD_mem_grid {l : Grid2} {k : Nat} (hk : k < l.length) : l.getD k [] ∈ l := by
  rw [List.getD_eq_getElem?_getD, List.getElem?_eq_getElem hk]
  exact List.getElem_mem hk

theorem getD_mem_grid3 {l : Grid3} {k : Nat} (hk : k < l.length) : l.getD k [] ∈ l := by
  rw [List.getD_eq_getElem?_getD, List.getElem?_eq_getElem hk]
  exact List.getElem_mem hk

theorem getD_flatten_uniform (ls : Grid2) (L : Nat) :
    ∀ (k r : Nat), (∀ l ∈ ls, l.length = L) → k < ls.length → r < L →
      ls.flatten.getD (k * L + r) 0 = (ls.getD k []).getD r 0 := by
  induction ls with
  | nil => intro k r _ hk _; simp at hk
  | cons hd tl ih =>
      intro k r h hk hr
      have hhd : hd.length = L := h hd (by simp)
      match k with
      | 0 =>
          have hlt : r < hd.length := by omega
          simp only [List.flatten_cons, Nat.zero_mul, Nat.zero_add, List.getD_cons_zero]
          rw [List.getD_eq_getElem?_getD, List.getElem?_append_left hlt,
            ← List.getD_eq_getElem?_getD]
      | k + 1 =>
          have hge : hd.length ≤ (k + 1) * L + r := by
            rw [hhd]; calc L ≤ (k + 1) * L := Nat.le_mul_of_pos_left L (Nat.succ_pos k)
              _ ≤ (k + 1) * L + r := Nat.le_add_right _ _
          have hsub : (k + 1) * L + r - hd.length = k * L + r := by
            rw [hhd, Nat.succ_mul]; omega
          simp only [List.flatten_cons, List.getD_cons_succ]
          rw [List.getD_eq_getElem?_getD, List.getElem?_append_right hge,
            hsub, ← List.getD_eq_getElem?_getD]
          exact ih k r (fun l hl => h l (by simp [hl])) (by simpa using hk) hr

theorem flatten3_getD (a : Grid3) (d1 d2 d3 c i j : Nat)
    (h : Rect3 a d1 d2 d3) (hc : c < d1) (hi : i < d2) (hj : j < d3) :
    (flatten3 a).getD (c * (d2 * d3) + (i * d3 + j)) 0
      = ((a.getD c []).getD i []).getD j 0 := by
  obtain ⟨hlen, hall⟩ := h
  have hc' : c < a.length := by omega
  have huni : ∀ l ∈ a.map List.flatten, l.length = d2 * d3 := by
    intro l hl
    obtain ⟨pl, hpl, rfl⟩ := List.mem_map.1 hl
    obtain ⟨h1, h2⟩ := hall pl hpl
    rw [flatten_length_uniform pl d3 h2, h1]
  have hr : i * d3 + j < d2 * d3 := by
    calc i * d3 + j < i * d3 + d3 := by omega
      _ = (i + 1) * d3 := by rw [Nat.succ_mul]
      _ ≤ d2 * d3 := Nat.mul_le_mul_right d3 hi
  have hstep := getD_flatten_uniform (a.map List.flatten) (d2 * d3)
    c (i * d3 + j) huni (by simpa using hc') hr
  rw [flatten3, hstep]
  have hmap : (a.map List.flatten).getD c [] = (a.getD c []).flatten := by
    rw [List.getD_eq_getElem?_getD, List.getElem?_map,
      List.getElem?_eq_getElem hc', List.getD_eq_getElem?_getD,
      List.getElem?_eq_getElem hc']
    rfl
  rw [hmap]
  obtain ⟨h1, h2⟩ := hall (a.getD c []) (getD_mem_grid3 hc')
  exact getD_flatten_uniform (a.getD c []) d3 i j h2 (by omega) hj

/-- C4: `pack_input_vector` is the concatenation of three blocks in order
positions (`zeta`), then position rates (`zeta_dot`), then external velocities
(`u_ext`); each block concatenates the per-surface flattened arrays in surface
index order; flattening is row-major (C order) with the 3-component axis
varying slowest (element `(c, i, j)` of a `(d1, d2, d3)` array lands at offset
`c*d2*d3 + i*d3 + j`). -/
theorem pack_input_vector_block_structure
    (ts : List Surface) (a : Grid3) (d1 d2 d3 c i j : Nat) :
    pack_input_vector ts
      = (ts.map fun s => flatten3 s.zeta).flatten
        ++ (ts.map fun s => flatten3 s.zeta_dot).flatten
        ++ (ts.map fun s => flatten3 s.u_ext).flatten
    ∧ (Rect3 a d1 d2 d3 → c < d1 → i < d2 → j < d3 →
        (flatten3 a).getD (c * (d2 * d3) + (i * d3 + j)) 0
          = ((a.getD c []).getD i []).getD j 0) := by
  exact ⟨rfl, fun h hc hi hj => flatten3_getD a d1 d2 d3 c i j h hc hi hj⟩

/-- Witness for C4: the block decomposition and the flattening index law at a
concrete one-surface snapshot and the concrete index `(2, 1, 0)` of a
`(3, 2, 2)` array. -/
theorem pack_input_vector_block_structure_witness :
    let a : Grid3 := [[[1, 2], [3, 4]], [[5, 6], [7, 8]], [[9, 10], [11, 12]]]
    let s : Surface := { zeta := a, zeta_dot := a, u_ext := a,
                         gamma := [], gamma_dot := [], gamma_star := [], forces := [] }
    pack_input_vector [s]
      = ([s].map fun q => flatten3 q.zeta).flatten
        ++ ([s].map fun q => flatten3 q.zeta_dot).flatten
        ++ ([s].map fun q => flatten3 q.u_ext).flatten
    ∧ (Rect3 a 3 2 2 ∧ 2 < 3 ∧ 1 < 2 ∧ 0 < 2)
    ∧ (flatten3 a).getD (2 * (2 * 2) + (1 * 2 + 0)) 0
        = ((a.getD 2 []).getD 1 []).getD 0 0 := by
  intro a s
  refine ⟨(pack_input_vector_block_structure [s] a 3 2 2 2 1 0).1,
    ⟨by decide, by decide, by decide, by decide⟩,
    (pack_input_vector_block_structure [s] a 3 2 2 2 1 0).2
      (by decide) (by decide) (by decide) (by decide)⟩

/-- numpy slicing `v[start:start+len]`: silently truncated when the vector is
too short. -/
def np_slice (v : List ℚ) (start len : Nat) : List ℚ :=
  (v.drop start).take len

/-- numpy `.shape` of a 2-axis array (rectangular by construction). -/
def shape2 (a : Grid2) : Nat × Nat :=
  (a.length, (a.headD []).length)

/-- numpy `.size` of a 2-axis array: the product of the shape. -/
def size2 (a : Grid2) : Nat :=
  (shape2 a).1 * (shape2 a).2

/-- numpy `.shape` of a 3-axis array (rectangular by construction). -/
def shape3 (a : Grid3) : Nat × Nat × Nat :=
  (a.length, (a.headD []).length, ((a.headD []).headD []).length)

/-- numpy `.size` of a 3-axis array: the product of the shape. -/
def size3 (a : Grid3) : Nat :=
  (shape3 a).1 * ((shape3 a).2.1 * (shape3 a).2.2)

/-- Split a vector into `r` consecutive rows of length `c` (row-major). -/
def toRows : Nat → Nat → List ℚ → Grid2
  | 0, _, _ => []
  | r + 1, c, v => v.take c :: toRows r c (v.drop c)

/-- Split a vector into `p` consecutive `r` by `c` planes (row-major). -/
def toPlanes : Nat → Nat → Nat → List ℚ → Grid3
  | 0, _, _, _ => []
  | p + 1, r, c, v => toRows r c (v.take (r * c)) :: toPlanes p r c (v.drop (r * c))

/-- numpy `v.reshape((r, c), order='C')`: `ValueError` (`none`) unless the
element count matches exactly. -/
def reshape2 (v : List ℚ) (r c : Nat) : Option Grid2 :=
  if v.length = r * c then some (toRows r c v) else none

/-- numpy `v.reshape((p, r, c), order='C')`: `ValueError` (`none`) unless the
element count matches exactly. -/
def reshape3 (v : List ℚ) (p r c : Nat) : Option Grid3 :=
  if v.length = p * (r * c) then some (toPlanes p r c v) else none

/-- `np.zeros(dimensions)` for a 3-axis `dimensions`. -/
def np_zeros3 (d : Nat × Nat × Nat) : Grid3 :=
  List.replicate d.1 (List.replicate d.2.1 (List.replicate d.2.2 (0 : ℚ)))

/-- The per-surface loop of `unpack_ss_vectors` (lines 375-409).  Each list
entry pairs a surface with its `aero_dimensions` and `aero_dimensions_star`
entries; the three `Nat` arguments are the running offsets `worked_points`,
`worked_panels` and `worked_wake_panels`.  Forces are cut from `f_aero` by
`zeta`-size and -shape, reshaped, and extended with 3 null planes; bound
circulation and its rate are cut from the unpacked state by `gamma`-size and
reshaped to `aero_dimensions`; wake circulation is cut by `gamma_star`-size and
reshaped to `aero_dimensions_star`.  A failed reshape aborts (`none`). -/
def unpackAux (gvec gsvec gdvec f_aero : List ℚ) :
    List (Surface × ((Nat × Nat) × (Nat × Nat))) → Nat → Nat → Nat →
    Option (List Grid3 × List Grid2 × List Grid2 × List Grid2)
  | [], _, _, _ => some ([], [], [], [])
  | (s, dg, dw) :: rest, worked_points, worked_panels, worked_wake => do
      let dimensions := shape3 s.zeta
      let points_in_surface := size3 s.zeta
      let panels_in_surface := size2 s.gamma
      let panels_in_wake := size2 s.gamma_star
      let fS ← reshape3 (np_slice f_aero worked_points points_in_surface)
        dimensions.1 dimensions.2.1 dimensions.2.2
      let fS2 := fS ++ np_zeros3 dimensions
      let gS ← reshape2 (np_slice gvec worked_panels panels_in_surface) dg.1 dg.2
      let gdS ← reshape2 (np_slice gdvec worked_panels panels_in_surface) dg.1 dg.2
      let gsS ← reshape2 (np_slice gsvec worked_wake panels_in_wake) dw.1 dw.2
      let (forces, gamma, gamma_dot, gamma_star) ← unpackAux gvec gsvec gdvec f_aero rest
        (worked_points + points_in_surface) (worked_panels + panels_in_surface)
        (worked_wake + panels_in_wake)
      some (fS2 :: forces, gS :: gamma, gdS :: gamma_dot, gsS :: gamma_star)

/-- `StepLinearUVLM.unpack_ss_vectors` (lines 318-410).  `unpack_state` is the
external `self.data.aero.linear['System'].unpack_state` (out of scope), which
turns the state and input vectors into the concatenated bound-, wake- and
rate-circulation vectors, in that order (line 363).  `aero_dimensions` and
`aero_dimensions_star` are `self.data.aero.aero_dimensions(_star)`; the source
indexes them by `range(aero_tstep.n_surf)`, here `List.zip` (equal lengths in
all modelled paths). -/
def unpack_ss_vectors (unpack_state : List ℚ → List ℚ → List ℚ × List ℚ × List ℚ)
    (y_n x_n u_n : List ℚ) (aero_tstep : List Surface)
    (aero_dimensions aero_dimensions_star : List (Nat × Nat)) :
    Option (List Grid3 × List Grid2 × List Grid2 × List Grid2) :=
  let f_aero := y_n
  let (gvec, gsvec, gdvec) := unpack_state x_n u_n
  unpackAux gvec gsvec gdvec f_aero
    (aero_tstep.zip (aero_dimensions.zip aero_dimensions_star)) 0 0 0

/-- Valid per-surface shapes for `unpack_ss_vectors`: the vertex grids are
rectangular `(3 or 6, R, C)` arrays with positive `R`, `C`, and the circulation
arrays are rectangular with the (positive) shapes recorded in
`aero_dimensions` / `aero_dimensions_star`. -/
def SurfOK (s : Surface) (dg dw : Nat × Nat) : Prop :=
  ∃ R C, 0 < R ∧ 0 < C ∧ Rect3 s.zeta 3 R C ∧ Rect3 s.forces 6 R C
    ∧ 0 < dg.1 ∧ 0 < dg.2 ∧ Rect2 s.gamma dg.1 dg.2 ∧ Rect2 s.gamma_dot dg.1 dg.2
    ∧ 0 < dw.1 ∧ 0 < dw.2 ∧ Rect2 s.gamma_star dw.1 dw.2

theorem toRows_flatten (a : Grid2) : ∀ (r c : Nat), a.length = r →
    (∀ row ∈ a, row.length = c) → toRows r c a.flatten = a := by
  induction a with
  | nil => intro r c h1 _; subst h1; rfl
  | cons hd tl ih =>
      intro r c h1 h2
      subst h1
      have hhd : hd.length = c := h2 hd (by simp)
      simp only [List.length_cons, List.flatten_cons, toRows]
      rw [← hhd, List.take_left, List.drop_left]
      exact congrArg _ (ih tl.length hd.length rfl
        fun row hr => (h2 row (by simp [hr])).trans hhd.symm)

theorem toPlanes_flatten3 (a : Grid3) : ∀ (p r c : Nat), Rect3 a p r c →
    toPlanes p r c (flatten3 a) = a := by
  induction a with
  | nil => intro p r c h; rw [← h.1]; rfl
  | cons hd tl ih =>
      intro p r c h
      obtain ⟨h1, h2⟩ := h
      subst h1
      obtain ⟨hr, hc⟩ := h2 hd (by simp)
      have hlen : hd.flatten.length = r * c := by
        rw [flatten_length_uniform hd c hc, hr]
      have hsplit : flatten3 (hd :: tl) = hd.flatten ++ flatten3 tl := by
        simp [flatten3]
      simp only [List.length_cons, toPlanes, hsplit]
      rw [← hlen, List.take_left, List.drop_left]
      exact congrArg₂ _ (toRows_flatten hd r c hr hc)
        (ih tl.length r c ⟨rfl, fun pl hpl => h2 pl (by simp [hpl])⟩)

theorem reshape2_flatten (a : Grid2) (r c : Nat) (h : Rect2 a r c) :
    reshape2 a.flatten r c = some a := by
  rw [reshape2, if_pos (by rw [flatten_length_uniform a c h.2, h.1]),
    toRows_flatten a r c h.1 h.2]

theorem reshape3_flatten3 (a : Grid3) (p r c : Nat) (h : Rect3 a p r c) :
    reshape3 (flatten3 a) p r c = some a := by
  rw [reshape3, if_pos (flatten3_length a p r c h), toPlanes_flatten3 a p r c h]

theorem Rect3_take (a : Grid3) (p r c k : Nat) (h : Rect3 a p r c) (hk : k ≤ p) :
    Rect3 (a.take k) k r c := by
  obtain ⟨h1, h2⟩ := h
  exact ⟨by rw [List.length_take, h1, Nat.min_eq_left hk],
    fun pl hpl => h2 pl (List.mem_of_mem_take hpl)⟩

theorem shape2_eq (a : Grid2) (r c : Nat) (h : Rect2 a r c) (hr : 0 < r) :
    shape2 a = (r, c) := by
  obtain ⟨h1, h2⟩ := h
  match a with
  | [] => simp at h1; omega
  | row :: tl =>
      have : row.length = c := h2 row (by simp)
      simp [shape2, ← h1, this]

theorem size2_eq (a : Grid2) (r c : Nat) (h : Rect2 a r c) (hr : 0 < r) :
    size2 a = r * c := by
  rw [size2, shape2_eq a r c h hr]

theorem shape3_eq (a : Grid3) (p r c : Nat) (h : Rect3 a p r c)
    (hp : 0 < p) (hr : 0 < r) : shape3 a = (p, r, c) := by
  obtain ⟨h1, h2⟩ := h
  match a with
  | [] => simp at h1; omega
  | pl :: tl =>
      obtain ⟨hpl1, hpl2⟩ := h2 pl (by simp)
      match pl with
      | [] => simp at hpl1; omega
      | row :: rows =>
          have : row.length = c := hpl2 row (by simp)
          simp [shape3, ← h1, ← hpl1, this]

theorem size3_eq (a : Grid3) (p r c : Nat) (h : Rect3 a p r c)
    (hp : 0 < p) (hr : 0 < r) : size3 a = p * (r * c) := by
  rw [size3, shape3_eq a p r c h hp hr]

theorem unpackAux_shift (L : List (Surface × ((Nat × Nat) × (Nat × Nat)))) :
    ∀ (gvec gsvec gdvec f_aero : List ℚ) (wp wpan wwake : Nat),
      unpackAux gvec gsvec gdvec f_aero L wp wpan wwake
        = unpackAux (gvec.drop wpan) (gsvec.drop wwake) (gdvec.drop wpan)
            (f_aero.drop wp) L 0 0 0 := by
  induction L with
  | nil => intro gvec gsvec gdvec f_aero wp wpan wwake; rfl
  | cons e rest ih =>
      intro gvec gsvec gdvec f_aero wp wpan wwake
      obtain ⟨s, dg, dw⟩ := e
      simp only [unpackAux, np_slice, List.drop_zero, Nat.zero_add, List.drop_drop]
      rw [ih gvec gsvec gdvec f_aero (wp + size3 s.zeta) (wpan + size2 s.gamma)
          (wwake + size2 s.gamma_star),
        ih (gvec.drop wpan) (gsvec.drop wwake) (gdvec.drop wpan) (f_aero.drop wp)
          (size3 s.zeta) (size2 s.gamma) (size2 s.gamma_star)]
      simp only [List.drop_drop, Nat.add_zero]

theorem unpackAux_forces_roundtrip
    (L : List (Surface × ((Nat × Nat) × (Nat × Nat)))) :
    ∀ (gvec gsvec gdvec : List ℚ),
      (∀ e ∈ L, SurfOK e.1 e.2.1 e.2.2) →
      (L.map fun e => size2 e.1.gamma).sum ≤ gvec.length →
      (L.map fun e => size2 e.1.gamma).sum ≤ gdvec.length →
      (L.map fun e => size2 e.1.gamma_star).sum ≤ gsvec.length →
      ∃ G GD GS,
        unpackAux gvec gsvec gdvec
            ((L.map fun e => flatten3 (e.1.forces.take 3)).flatten) L 0 0 0
          = some (L.map (fun e => e.1.forces.take 3 ++ np_zeros3 (shape3 e.1.zeta)),
              G, GD, GS) := by
  induction L with
  | nil => intro gvec gsvec gdvec _ _ _ _; exact ⟨[], [], [], rfl⟩
  | cons e rest ih =>
      intro gvec gsvec gdvec hok hgv hgd hgs
      obtain ⟨s, dg, dw⟩ := e
      obtain ⟨R, C, hR, hC, hzeta, hforces, hdg1, hdg2, hgam, hgamdot, hdw1, hdw2, hstar⟩ :=
        hok (s, dg, dw) (by simp)
      have hsz : size3 s.zeta = 3 * (R * C) := size3_eq _ 3 R C hzeta (by omega) hR
      have hshape : shape3 s.zeta = (3, R, C) := shape3_eq _ 3 R C hzeta (by omega) hR
      have hszg : size2 s.gamma = dg.1 * dg.2 := size2_eq _ _ _ hgam hdg1
      have hszs : size2 s.gamma_star = dw.1 * dw.2 := size2_eq _ _ _ hstar hdw1
      have htake3 : Rect3 (s.forces.take 3) 3 R C := Rect3_take _ 6 R C 3 hforces (by omega)
      have hflen : (flatten3 (s.forces.take 3)).length = 3 * (R * C) :=
        flatten3_length _ 3 R C htake3
      have hgv' : size2 s.gamma + (rest.map fun e => size2 e.1.gamma).sum ≤ gvec.length := by
        simpa using hgv
      have hgd' : size2 s.gamma + (rest.map fun e => size2 e.1.gamma).sum ≤ gdvec.length := by
        simpa using hgd
      have hgs' : size2 s.gamma_star + (rest.map fun e => size2 e.1.gamma_star).sum
          ≤ gsvec.length := by simpa using hgs
      obtain ⟨G, GD, GS, hrec⟩ := ih (gvec.drop (size2 s.gamma))
        (gsvec.drop (size2 s.gamma_star)) (gdvec.drop (size2 s.gamma))
        (fun e he => hok e (by simp [he]))
        (by rw [List.length_drop]; omega)
        (by rw [List.length_drop]; omega)
        (by rw [List.length_drop]; omega)
      have e2 : reshape2 (gvec.take (size2 s.gamma)) dg.1 dg.2
          = some (toRows dg.1 dg.2 (gvec.take (size2 s.gamma))) := by
        rw [reshape2, if_pos]
        rw [List.length_take, Nat.min_eq_left (by omega), hszg]
      have e3 : reshape2 (gdvec.take (size2 s.gamma)) dg.1 dg.2
          = some (toRows dg.1 dg.2 (gdvec.take (size2 s.gamma))) := by
        rw [reshape2, if_pos]
        rw [List.length_take, Nat.min_eq_left (by omega), hszg]
      have e4 : reshape2 (gsvec.take (size2 s.gamma_star)) dw.1 dw.2
          = some (toRows dw.1 dw.2 (gsvec.take (size2 s.gamma_star))) := by
        rw [reshape2, if_pos]
        rw [List.length_take, Nat.min_eq_left (by omega), hszs]
      refine ⟨toRows dg.1 dg.2 (gvec.take (size2 s.gamma)) :: G,
        toRows dg.1 dg.2 (gdvec.take (size2 s.gamma)) :: GD,
        toRows dw.1 dw.2 (gsvec.take (size2 s.gamma_star)) :: GS, ?_⟩
      simp only [unpackAux, np_slice, List.drop_zero, Nat.zero_add, List.map_cons,
        List.flatten_cons]
      rw [hsz, ← hflen, List.take_left, hshape]
      rw [reshape3_flatten3 _ 3 R C htake3]
      rw [unpackAux_shift rest gvec gsvec gdvec _ _ _ _]
      rw [List.drop_left]
      rw [hrec, e2, e3, e4]
      rfl

theorem zip_map_fst {α β γ : Type} (ts : List α) (z : List β) (g : α → γ)
    (h : ts.length ≤ z.length) :
    (ts.zip z).map (fun e => g e.1) = ts.map g := by
  have : (fun (e : α × β) => g e.1) = g ∘ Prod.fst := rfl
  rw [this, ← List.map_map, List.map_fst_zip ts z h]

/-- C5: packing the forces (first 3 rows of every surface in surface order,
row-major: `forces_vec`) and unpacking the result with `unpack_ss_vectors`
reproduces each surface's 3 force-component rows exactly, each extended by 3
null planes of the surface's grid shape, for every snapshot collection with
valid per-surface shapes and an `unpack_state` collaborator returning
sufficiently long circulation vectors. -/
theorem unpack_ss_vectors_forces_roundtrip
    (unpack_state : List ℚ → List ℚ → List ℚ × List ℚ × List ℚ)
    (x u : List ℚ) (ts : List Surface) (ad ads : List (Nat × Nat))
    (had : ad.length = ts.length) (hads : ads.length = ts.length)
    (hok : ∀ e ∈ ts.zip (ad.zip ads), SurfOK e.1 e.2.1 e.2.2)
    (hgv : (ts.map fun s => size2 s.gamma).sum ≤ (unpack_state x u).1.length)
    (hgd : (ts.map fun s => size2 s.gamma).sum ≤ (unpack_state x u).2.2.length)
    (hgs : (ts.map fun s => size2 s.gamma_star).sum ≤ (unpack_state x u).2.1.length) :
    ∃ G GD GS,
      unpack_ss_vectors unpack_state (forces_vec ts) x u ts ad ads
        = some (ts.map (fun s => s.forces.take 3 ++ np_zeros3 (shape3 s.zeta)),
            G, GD, GS) := by
  have hlen : ts.length ≤ (ad.zip ads).length := by
    rw [List.length_zip]; omega
  have h1 : (ts.zip (ad.zip ads)).map (fun e => size2 e.1.gamma)
      = ts.map fun s => size2 s.gamma :=
    zip_map_fst ts (ad.zip ads) (fun s => size2 s.gamma) hlen
  have h2 : (ts.zip (ad.zip ads)).map (fun e => size2 e.1.gamma_star)
      = ts.map fun s => size2 s.gamma_star :=
    zip_map_fst ts (ad.zip ads) (fun s => size2 s.gamma_star) hlen
  have h3 : (ts.zip (ad.zip ads)).map (fun e => flatten3 (e.1.forces.take 3))
      = ts.map fun s => flatten3 (s.forces.take 3) :=
    zip_map_fst ts (ad.zip ads) (fun s => flatten3 (s.forces.take 3)) hlen
  have h4 : (ts.zip (ad.zip ads)).map (fun e => e.1.forces.take 3 ++ np_zeros3 (shape3 e.1.zeta))
      = ts.map fun s => s.forces.take 3 ++ np_zeros3 (shape3 s.zeta) :=
    zip_map_fst ts (ad.zip ads) (fun s => s.forces.take 3 ++ np_zeros3 (shape3 s.zeta)) hlen
  obtain ⟨gv, gsv, gdv, hE⟩ : ∃ gv gsv gdv, unpack_state x u = (gv, gsv, gdv) :=
    ⟨_, _, _, rfl⟩
  rw [hE] at hgv hgd hgs
  obtain ⟨G, GD, GS, h⟩ := unpackAux_forces_roundtrip (ts.zip (ad.zip ads)) gv gsv gdv
    hok (by rw [h1]; exact hgv) (by rw [h1]; exact hgd) (by rw [h2]; exact hgs)
  refine ⟨G, GD, GS, ?_⟩
  rw [unpack_ss_vectors, hE]
  show unpackAux gv gsv gdv (forces_vec ts) (ts.zip (ad.zip ads)) 0 0 0 = _
  rw [forces_vec, ← h3, h, h4]

theorem unpackAux_short_output (L : List (Surface × ((Nat × Nat) × (Nat × Nat)))) :
    ∀ (gvec gsvec gdvec y : List ℚ),
      y.length < (L.map fun e => size3 e.1.zeta).sum →
      unpackAux gvec gsvec gdvec y L 0 0 0 = none := by
  induction L with
  | nil => intro gvec gsvec gdvec y hy; simp at hy
  | cons e rest ih =>
      intro gvec gsvec gdvec y hy
      obtain ⟨s, dg, dw⟩ := e
      simp only [List.map_cons, List.sum_cons] at hy
      simp only [unpackAux, np_slice, List.drop_zero, Nat.zero_add]
      by_cases hn : y.length < size3 s.zeta
      · have hfail : reshape3 (y.take (size3 s.zeta)) (shape3 s.zeta).1
            (shape3 s.zeta).2.1 (shape3 s.zeta).2.2 = none := by
          rw [reshape3, if_neg]
          rw [List.length_take]
          simp only [size3] at hn ⊢
          omega
        rw [hfail]; rfl
      · rcases h3 : reshape3 (y.take (size3 s.zeta)) (shape3 s.zeta).1
            (shape3 s.zeta).2.1 (shape3 s.zeta).2.2 with _ | fS
        · rfl
        rcases hg : reshape2 (gvec.take (size2 s.gamma)) dg.1 dg.2 with _ | gS
        · rfl
        rcases hgdm : reshape2 (gdvec.take (size2 s.gamma)) dg.1 dg.2 with _ | gdS
        · rfl
        rcases hgsm : reshape2 (gsvec.take (size2 s.gamma_star)) dw.1 dw.2 with _ | gsS
        · rfl
        have hrec : unpackAux gvec gsvec gdvec y rest (size3 s.zeta) (size2 s.gamma)
            (size2 s.gamma_star) = none := by
          rw [unpackAux_shift]
          exact ih _ _ _ _ (by rw [List.length_drop]; omega)
        rw [hrec]; rfl

theorem unpackAux_take_invariance (L : List (Surface × ((Nat × Nat) × (Nat × Nat)))) :
    ∀ (gvec gsvec gdvec y : List ℚ),
      unpackAux gvec gsvec gdvec y L 0 0 0
        = unpackAux (gvec.take ((L.map fun e => size2 e.1.gamma).sum))
            (gsvec.take ((L.map fun e => size2 e.1.gamma_star).sum))
            (gdvec.take ((L.map fun e => size2 e.1.gamma).sum))
            (y.take ((L.map fun e => size3 e.1.zeta).sum)) L 0 0 0 := by
  induction L with
  | nil => intro gvec gsvec gdvec y; rfl
  | cons e rest ih =>
      intro gvec gsvec gdvec y
      obtain ⟨s, dg, dw⟩ := e
      simp only [unpackAux, np_slice, List.drop_zero, Nat.zero_add, List.map_cons,
        List.sum_cons]
      rw [List.take_take, Nat.min_eq_left (Nat.le_add_right _ _),
        List.take_take, Nat.min_eq_left (Nat.le_add_right _ _),
        List.take_take, Nat.min_eq_left (Nat.le_add_right _ _),
        List.take_take, Nat.min_eq_left (Nat.le_add_right _ _)]
      rw [unpackAux_shift rest gvec gsvec gdvec y _ _ _,
        unpackAux_shift rest (gvec.take _) (gsvec.take _) (gdvec.take _) (y.take _) _ _ _]
      rw [List.drop_take, List.drop_take, List.drop_take, List.drop_take]
      simp only [Nat.add_sub_cancel_left]
      rw [ih (gvec.drop (size2 s.gamma)) (gsvec.drop (size2 s.gamma_star))
        (gdvec.drop (size2 s.gamma)) (y.drop (size3 s.zeta))]

/-- Witness for C5 at a concrete one-surface 2x2-vertex snapshot: the forces
block round-trips and the trailing 3 planes are null. -/
theorem unpack_ss_vectors_forces_roundtrip_witness :
    let z3 : Grid3 := [[[0, 0], [0, 0]], [[0, 0], [0, 0]], [[0, 0], [0, 0]]]
    let f6 : Grid3 := [[[1, 2], [3, 4]], [[5, 6], [7, 8]], [[9, 10], [11, 12]],
                       [[0, 0], [0, 0]], [[0, 0], [0, 0]], [[0, 0], [0, 0]]]
    let s : Surface := { zeta := z3, zeta_dot := z3, u_ext := z3,
                         gamma := [[1, 2], [3, 4]], gamma_dot := [[0, 0], [0, 0]],
                         gamma_star := [[0, 0]], forces := f6 }
    (unpack_ss_vectors
        (fun _ _ => (List.replicate 4 0, List.replicate 2 0, List.replicate 4 0))
        (forces_vec [s]) [] [] [s] [(2, 2)] [(1, 2)]).map (fun r => r.1)
      = some [f6] := by
  intro z3 f6 s
  obtain ⟨G, GD, GS, h⟩ := unpack_ss_vectors_forces_roundtrip
    (fun _ _ => (List.replicate 4 0, List.replicate 2 0, List.replicate 4 0))
    [] [] [s] [(2, 2)] [(1, 2)] rfl rfl
    (by
      intro e he
      simp only [List.zip_cons_cons, List.zip_nil_right, List.mem_singleton] at he
      subst he
      exact ⟨2, 2, by decide, by decide, by decide, by decide, by decide, by decide,
        by decide, by decide, by decide, by decide, by decide⟩)
    (by decide) (by decide) (by decide)
  rw [h]
  rfl

/-- C6 (amended): `unpack_ss_vectors` consumes exactly the per-surface sums of
element counts from the output vector and from each circulation vector returned
by `unpack_state`, in surface order: the result depends only on those prefixes
(extra elements are silently left unconsumed, not an error), while an output
vector with fewer elements than the required sum is a fatal error (`none`). -/
theorem unpack_ss_vectors_consumption
    (unpack_state : List ℚ → List ℚ → List ℚ × List ℚ × List ℚ)
    (y x u : List ℚ) (ts : List Surface) (ad ads : List (Nat × Nat))
    (had : ad.length = ts.length) (hads : ads.length = ts.length) :
    (y.length < (ts.map fun s => size3 s.zeta).sum →
        unpack_ss_vectors unpack_state y x u ts ad ads = none)
    ∧ unpack_ss_vectors unpack_state y x u ts ad ads
        = unpack_ss_vectors
            (fun a b =>
              ((unpack_state a b).1.take ((ts.map fun s => size2 s.gamma).sum),
               (unpack_state a b).2.1.take ((ts.map fun s => size2 s.gamma_star).sum),
               (unpack_state a b).2.2.take ((ts.map fun s => size2 s.gamma).sum)))
            (y.take ((ts.map fun s => size3 s.zeta).sum)) x u ts ad ads := by
  have hlen : ts.length ≤ (ad.zip ads).length := by
    rw [List.length_zip]; omega
  have h0 : (ts.zip (ad.zip ads)).map (fun e => size3 e.1.zeta)
      = ts.map fun s => size3 s.zeta :=
    zip_map_fst ts (ad.zip ads) (fun s => size3 s.zeta) hlen
  have h1 : (ts.zip (ad.zip ads)).map (fun e => size2 e.1.gamma)
      = ts.map fun s => size2 s.gamma :=
    zip_map_fst ts (ad.zip ads) (fun s => size2 s.gamma) hlen
  have h2 : (ts.zip (ad.zip ads)).map (fun e => size2 e.1.gamma_star)
      = ts.map fun s => size2 s.gamma_star :=
    zip_map_fst ts (ad.zip ads) (fun s => size2 s.gamma_star) hlen
  obtain ⟨gv, gsv, gdv, hE⟩ : ∃ gv gsv gdv, unpack_state x u = (gv, gsv, gdv) :=
    ⟨_, _, _, rfl⟩
  constructor
  · intro hy
    rw [unpack_ss_vectors, hE]
    exact unpackAux_short_output _ _ _ _ _ (by rw [h0]; exact hy)
  · rw [unpack_ss_vectors, hE, unpack_ss_vectors, hE]
    rw [← h0, ← h1, ← h2]
    exact unpackAux_take_invariance _ gv gsv gdv y

/-- Counterexample for C6 as stated: an output vector with MORE elements (13)
than the per-surface sum (12) is not a fatal error; `unpack_ss_vectors`
succeeds, silently leaving the extra element unconsumed. -/
theorem unpack_ss_vectors_extra_elements_counterexample :
    let z3 : Grid3 := [[[0, 0], [0, 0]], [[0, 0], [0, 0]], [[0, 0], [0, 0]]]
    let s : Surface := { zeta := z3, zeta_dot := z3, u_ext := z3,
                         gamma := [[1, 2], [3, 4]], gamma_dot := [[0, 0], [0, 0]],
                         gamma_star := [[0, 0]], forces := z3 ++ z3 }
    ([s].map fun q => size3 q.zeta).sum = 12
    ∧ (List.replicate 13 (0 : ℚ)).length = 13
    ∧ (unpack_ss_vectors
        (fun _ _ => (List.replicate 4 0, List.replicate 2 0, List.replicate 4 0))
        (List.replicate 13 0) [] [] [s] [(2, 2)] [(1, 2)]).isSome = true := by
  intro z3 s
  exact ⟨rfl, rfl, rfl⟩

/-- Witness for C6 (amended) at a concrete snapshot: an output vector with
fewer elements (11) than the per-surface sum (12) makes unpacking fail. -/
theorem unpack_ss_vectors_consumption_witness :
    let z3 : Grid3 := [[[0, 0], [0, 0]], [[0, 0], [0, 0]], [[0, 0], [0, 0]]]
    let s : Surface := { zeta := z3, zeta_dot := z3, u_ext := z3,
                         gamma := [[1, 2], [3, 4]], gamma_dot := [[0, 0], [0, 0]],
                         gamma_star := [[0, 0]], forces := z3 ++ z3 }
    unpack_ss_vectors
        (fun _ _ => (List.replicate 4 0, List.replicate 2 0, List.replicate 4 0))
        (List.replicate 11 0) [] [] [s] [(2, 2)] [(1, 2)] = none := by
  intro z3 s
  exact (unpack_ss_vectors_consumption
    (fun _ _ => (List.replicate 4 0, List.replicate 2 0, List.replicate 4 0))
    (List.replicate 11 0) [] [] [s] [(2, 2)] [(1, 2)] rfl rfl).1 (by decide)

/-- numpy elementwise subtraction of equal-length vectors. -/
def vsub (a b : List ℚ) : List ℚ :=
  List.zipWith (fun x y => x - y) a b

/-- numpy elementwise addition of equal-length vectors. -/
def vadd (a b : List ℚ) : List ℚ :=
  List.zipWith (fun x y => x + y) a b

/-- The velocity generator call (lines 265-271): with `override = True` it
refills `aero_tstep.u_ext` in place, surface by surface, leaving every other
field untouched.  `e` is the generated per-surface external velocity field. -/
def set_u_ext (ts : List Surface) (e : List Grid3) : List Surface :=
  List.zipWith (fun s g => { s with u_ext := g }) ts e

/-- The write-back of the step results (lines 302-305): the per-surface
`forces`, `gamma`, `gamma_dot` and `gamma_star` lists of the current snapshot
are replaced wholesale by the unpacked results (which hold one entry per
surface). -/
def write_results (ts : List Surface) (F : List Grid3) (G GD GS : List Grid2) :
    List Surface :=
  match ts, F, G, GD, GS with
  | s :: ts2, f :: F2, g :: G2, gd :: GD2, gs :: GS2 =>
      { s with forces := f, gamma := g, gamma_dot := gd, gamma_star := gs }
        :: write_results ts2 F2 G2 GD2 GS2
  | _, _, _, _, _ => []

/-- Lines 279-283 of `run`: when `remove_predictor` is set, pack the input of
the most recent retained snapshot `timestep_info[-1]` and take its delta from
`u_0`; otherwise the previous-step input delta is `None`.  An empty history
would raise `IndexError`. -/
def input_delta_m1 (remove_predictor : Bool) (timestep_info : List (List Surface))
    (u_0 : List ℚ) : Except String (Option (List ℚ)) :=
  if remove_predictor then
    match timestep_info.getLast? with
    | some last => .ok (some (vsub (pack_input_vector last) u_0))
    | none => .error "IndexError: timestep_info is empty"
  else .ok none

/-- Lines 286-289 of `run`: the state at step n-1 is packed from the current
snapshot and `timestep_info[-2]` when at least two timesteps are retained,
otherwise from the current snapshot alone (previous snapshot `None`, i.e. the
backward-difference approximation inside `pack_state_vector`). -/
def state_m1 (timestep_info : List (List Surface)) (aero_tstep : List Surface)
    (dt : ℚ) (integr_order : Int) : List ℚ :=
  if timestep_info.length < 2 then
    pack_state_vector aero_tstep none dt integr_order
  else
    pack_state_vector aero_tstep (timestep_info[timestep_info.length - 2]?) dt integr_order

/-- Modelled from the spec: `solve_step` of the assembled linear operator
(`sharpy.linear.src.linuvlm.Dynamic`), which is not under `src/`.  Spec section
4.2: the standard form computes `x[n] = A x[n-1] + B u[n]`,
`y[n] = C x[n] + D u[n]` from the current-step input delta only; the
predictor-removed form propagates `h[n] = A h[n-1] + B u[n-1]` with
`y[n] = C h[n] + D u[n]` and requires the previous-step input delta; invoking
the predictor-removed form without it is a fatal missing-history error (spec
section 7), not a silent default to zero.  `A`, `B`, `C`, `D` are abstract
linear maps (dense or sparse storage is transparent). -/
def Dynamic.solve_step (A B C D : List ℚ → List ℚ) (remove_predictor : Bool)
    (dx_m1 : List ℚ) (du_m1 : Option (List ℚ)) (du_n : List ℚ) :
    Except String (List ℚ × List ℚ) :=
  if remove_predictor then
    match du_m1 with
    | none => .error "missing-history: predictor-removed step requires the previous step input"
    | some dum1 =>
        let h_n := vadd (A dx_m1) (B dum1)
        .ok (h_n, vadd (C h_n) (D du_n))
  else
    let x_n := vadd (A dx_m1) (B du_n)
    .ok (x_n, vadd (C x_n) (D du_n))

/-- `StepLinearUVLM.run` (lines 190-307).  `solve_step` and `unpack_state` are
the external assembled operator's methods; `generate` is the external velocity
field generator (its other inputs - time, step index, structural frame offset -
are absorbed into the function).  `aero_tstep0 = none` models the `None`
default, resolved to `timestep_info[-1]`.  Snapshots are passed by value: the
source may alias `aero_tstep` with `timestep_info[-1]`, which none of the
verified claims exercise.  Returns the final `data.aero.linear` reference
triple together with the current snapshot after the write-back of forces and
circulations. -/
def run
    (solve_step : List ℚ → Option (List ℚ) → List ℚ → Except String (List ℚ × List ℚ))
    (unpack_state : List ℚ → List ℚ → List ℚ × List ℚ × List ℚ)
    (generate : List Surface → List Grid3)
    (timestep_info : List (List Surface)) (linear : AeroLinear)
    (aero_tstep0 : Option (List Surface)) (dt : ℚ) (integr_order : Int)
    (remove_predictor : Bool)
    (aero_dimensions aero_dimensions_star : List (Nat × Nat)) :
    Except String (AeroLinear × List Surface) := do
  let aero_tstep ← (match aero_tstep0 with
    | some ts => Except.ok ts
    | none =>
        match timestep_info.getLast? with
        | some ts => Except.ok ts
        | none => Except.error "IndexError: timestep_info is empty")
  let aero_tstep := set_u_ext aero_tstep (generate aero_tstep)
  let u_n := pack_input_vector aero_tstep
  let du_n := vsub u_n linear.u_0
  let du_m1 ← input_delta_m1 remove_predictor timestep_info linear.u_0
  let x_m1 := state_m1 timestep_info aero_tstep dt integr_order
  let dx_m1 := vsub x_m1 linear.x_0
  let (dx_n, dy_n) ← solve_step dx_m1 du_m1 du_n
  let x_n := vadd linear.x_0 dx_n
  let y_n := vadd linear.y_0 dy_n
  match unpack_ss_vectors unpack_state y_n x_n u_n aero_tstep
      aero_dimensions aero_dimensions_star with
  | none => Except.error "ValueError: cannot reshape"
  | some (forces, gamma, gamma_dot, gamma_star) =>
      Except.ok (linear, write_results aero_tstep forces gamma gamma_dot gamma_star)

theorem set_u_ext_map {γ : Type} (f : Surface → γ)
    (hf : ∀ (s : Surface) (g : Grid3), f { s with u_ext := g } = f s) :
    ∀ (ts : List Surface) (e : List Grid3), e.length = ts.length →
      (set_u_ext ts e).map f = ts.map f := by
  intro ts
  induction ts with
  | nil => intro e _; rfl
  | cons s ts2 ih =>
      intro e he
      match e with
      | [] => simp at he
      | g :: e2 =>
          simp only [set_u_ext, List.zipWith_cons_cons, List.map_cons, hf]
          exact congrArg _ (ih e2 (by simpa using he))

theorem set_u_ext_length (ts : List Surface) (e : List Grid3) (he : e.length = ts.length) :
    (set_u_ext ts e).length = ts.length := by
  rw [set_u_ext, List.length_zipWith, he, Nat.min_self]

theorem pack_state_vector_set_u_ext (ts : List Surface) (e : List Grid3)
    (he : e.length = ts.length) (p : Option (List Surface)) (dt : ℚ) (io : Int) :
    pack_state_vector (set_u_ext ts e) p dt io = pack_state_vector ts p dt io := by
  have hg : gamma_vec (set_u_ext ts e) = gamma_vec ts := by
    rw [gamma_vec, gamma_vec, set_u_ext_map (fun s => s.gamma.flatten) (fun _ _ => rfl) ts e he]
  have hgs : gamma_star_vec (set_u_ext ts e) = gamma_star_vec ts := by
    rw [gamma_star_vec, gamma_star_vec,
      set_u_ext_map (fun s => s.gamma_star.flatten) (fun _ _ => rfl) ts e he]
  have hgd : gamma_dot_vec (set_u_ext ts e) = gamma_dot_vec ts := by
    rw [gamma_dot_vec, gamma_dot_vec,
      set_u_ext_map (fun s => s.gamma_dot.flatten) (fun _ _ => rfl) ts e he]
  simp only [pack_state_vector, hg, hgs, hgd, set_u_ext_length ts e he]

theorem state_m1_set_u_ext (tsinfo : List (List Surface)) (ts : List Surface)
    (e : List Grid3) (he : e.length = ts.length) (dt : ℚ) (io : Int) :
    state_m1 tsinfo (set_u_ext ts e) dt io = state_m1 tsinfo ts dt io := by
  rw [state_m1, state_m1]
  split
  · exact pack_state_vector_set_u_ext ts e he none dt io
  · exact pack_state_vector_set_u_ext ts e he _ dt io

theorem run_some_unfold
    (solve_step : List ℚ → Option (List ℚ) → List ℚ → Except String (List ℚ × List ℚ))
    (unpack_state : List ℚ → List ℚ → List ℚ × List ℚ × List ℚ)
    (generate : List Surface → List Grid3)
    (timestep_info : List (List Surface)) (linear : AeroLinear)
    (ts : List Surface) (dt : ℚ) (io : Int) (rp : Bool)
    (ad ads : List (Nat × Nat)) :
    run solve_step unpack_state generate timestep_info linear (some ts) dt io rp ad ads
      = (do
          let du_m1 ← input_delta_m1 rp timestep_info linear.u_0
          let (dx_n, dy_n) ← solve_step
            (vsub (state_m1 timestep_info (set_u_ext ts (generate ts)) dt io) linear.x_0)
            du_m1
            (vsub (pack_input_vector (set_u_ext ts (generate ts))) linear.u_0)
          match unpack_ss_vectors unpack_state (vadd linear.y_0 dy_n) (vadd linear.x_0 dx_n)
              (pack_input_vector (set_u_ext ts (generate ts))) (set_u_ext ts (generate ts))
              ad ads with
          | none => Except.error "ValueError: cannot reshape"
          | some (forces, gamma, gamma_dot, gamma_star) =>
              Except.ok (linear,
                write_results (set_u_ext ts (generate ts)) forces gamma gamma_dot gamma_star)) :=
  rfl

/-- C7: in every `run` call, the state at step n-1 is packed from the current
snapshot and the retained snapshot `timestep_info[-2]` when at least two
timesteps exist (the previous-snapshot argument is then present), and from the
current snapshot alone with previous-snapshot argument `None` (the
backward-difference approximation) when fewer than two exist; the delta state
handed to the external `solve_step` is that packed state minus the stored
reference state `x_0`. -/
theorem run_state_packing
    (solve_step : List ℚ → Option (List ℚ) → List ℚ → Except String (List ℚ × List ℚ))
    (unpack_state : List ℚ → List ℚ → List ℚ × List ℚ × List ℚ)
    (generate : List Surface → List Grid3)
    (timestep_info : List (List Surface)) (linear : AeroLinear)
    (ts : List Surface) (dt : ℚ) (io : Int) (rp : Bool)
    (ad ads : List (Nat × Nat))
    (hgen : (generate ts).length = ts.length) :
    (2 ≤ timestep_info.length →
        state_m1 timestep_info ts dt io
          = pack_state_vector ts (timestep_info[timestep_info.length - 2]?) dt io
        ∧ ∃ prev, timestep_info[timestep_info.length - 2]? = some prev)
    ∧ (timestep_info.length < 2 →
        state_m1 timestep_info ts dt io = pack_state_vector ts none dt io)
    ∧ run solve_step unpack_state generate timestep_info linear (some ts) dt io rp ad ads
        = run (fun _ du1 dun =>
              solve_step (vsub (state_m1 timestep_info ts dt io) linear.x_0) du1 dun)
            unpack_state generate timestep_info linear (some ts) dt io rp ad ads := by
  refine ⟨?_, ?_, ?_⟩
  · intro h2
    constructor
    · rw [state_m1, if_neg (by omega)]
    · exact ⟨_, List.getElem?_eq_getElem (by omega)⟩
  · intro h2
    rw [state_m1, if_pos h2]
  · rw [run_some_unfold, run_some_unfold,
      state_m1_set_u_ext timestep_info ts (generate ts) hgen dt io]

/-- Witness for C7 at concrete inputs, in both history regimes. -/
theorem run_state_packing_witness :
    let s : Surface := { zeta := [], zeta_dot := [], u_ext := [], gamma := [[1]],
                         gamma_dot := [[2]], gamma_star := [[3]], forces := [] }
    let ld : AeroLinear := { x_0 := [], u_0 := [], y_0 := [] }
    (2 ≤ ([[s], [s]] : List (List Surface)).length
      → state_m1 [[s], [s]] [s] 0 2
          = pack_state_vector [s] ([[s], [s]] : List (List Surface))[2 - 2]? 0 2)
    ∧ (([[s]] : List (List Surface)).length < 2
      → state_m1 [[s]] [s] 0 2 = pack_state_vector [s] none 0 2)
    ∧ run (fun _ _ _ => .ok ([], [])) (fun _ _ => ([], [], [])) (fun _ => [[]])
          [[s], [s]] ld (some [s]) 0 2 false [] []
        = run (fun _ du1 dun =>
              (fun _ _ _ => (.ok ([], []) : Except String (List ℚ × List ℚ)))
                (vsub (state_m1 [[s], [s]] [s] 0 2) ld.x_0) du1 dun)
            (fun _ _ => ([], [], [])) (fun _ => [[]]) [[s], [s]] ld (some [s]) 0 2 false [] [] := by
  intro s ld
  have h1 := run_state_packing (fun _ _ _ => .ok ([], [])) (fun _ _ => ([], [], []))
    (fun _ => [[]]) [[s], [s]] ld [s] 0 2 false [] [] (by decide)
  have h2 := run_state_packing (fun _ _ _ => .ok ([], [])) (fun _ _ => ([], [], []))
    (fun _ => [[]]) [[s]] ld [s] 0 2 false [] [] (by decide)
  exact ⟨fun h => (h1.1 h).1, fun h => h2.2.1 h, h1.2.2⟩

/-- C8: the previous-step input delta is supplied to `solve_step` iff the
predictor-removed form is active: with `remove_predictor` set, `run` packs the
input of `timestep_info[-1]` and passes its delta from `u_0`; otherwise it
passes `None` and the standard form never uses a previous-step input; and the
(spec-modelled) predictor-removed step without a previous-step input is a fatal
missing-history error, not a silent default to zero. -/
theorem run_predictor_input_selection
    (solve_step : List ℚ → Option (List ℚ) → List ℚ → Except String (List ℚ × List ℚ))
    (unpack_state : List ℚ → List ℚ → List ℚ × List ℚ × List ℚ)
    (generate : List Surface → List Grid3)
    (timestep_info : List (List Surface)) (linear : AeroLinear)
    (ts : List Surface) (dt : ℚ) (io : Int) (ad ads : List (Nat × Nat))
    (A B C D : List ℚ → List ℚ) (dx du : List ℚ)
    (hne : timestep_info ≠ []) :
    input_delta_m1 false timestep_info linear.u_0 = .ok none
    ∧ input_delta_m1 true timestep_info linear.u_0
        = .ok (some (vsub (pack_input_vector (timestep_info.getLastD [])) linear.u_0))
    ∧ run solve_step unpack_state generate timestep_info linear (some ts) dt io false ad ads
        = run (fun dxv _ dun => solve_step dxv none dun)
            unpack_state generate timestep_info linear (some ts) dt io false ad ads
    ∧ run solve_step unpack_state generate timestep_info linear (some ts) dt io true ad ads
        = run (fun dxv _ dun =>
              solve_step dxv
                (some (vsub (pack_input_vector (timestep_info.getLastD [])) linear.u_0)) dun)
            unpack_state generate timestep_info linear (some ts) dt io true ad ads
    ∧ Dynamic.solve_step A B C D true dx none du
        = .error "missing-history: predictor-removed step requires the previous step input" := by
  rcases hL : timestep_info.getLast? with _ | last
  · exact absurd (List.getLast?_eq_none_iff.mp hL) hne
  have hD : timestep_info.getLastD [] = last := by
    rw [List.getLastD_eq_getLast?, hL]; rfl
  have hI : input_delta_m1 true timestep_info linear.u_0
      = .ok (some (vsub (pack_input_vector last) linear.u_0)) := by
    rw [input_delta_m1, if_pos rfl, hL]
  refine ⟨rfl, by rw [hI, hD], rfl, ?_, rfl⟩
  rw [run_some_unfold, run_some_unfold, hI, hD]
  rfl

/-- Witness for C8 at concrete inputs with a one-entry history. -/
theorem run_predictor_input_selection_witness :
    let s : Surface := { zeta := [], zeta_dot := [], u_ext := [], gamma := [[1]],
                         gamma_dot := [[2]], gamma_star := [[3]], forces := [] }
    let ld : AeroLinear := { x_0 := [], u_0 := [], y_0 := [] }
    input_delta_m1 false [[s]] ld.u_0 = .ok none
    ∧ input_delta_m1 true [[s]] ld.u_0
        = .ok (some (vsub (pack_input_vector (([[s]] : List (List Surface)).getLastD []))
            ld.u_0))
    ∧ Dynamic.solve_step id id id id true [1] none [2]
        = .error "missing-history: predictor-removed step requires the previous step input" := by
  intro s ld
  have h := run_predictor_input_selection (fun _ _ _ => .ok ([], []))
    (fun _ _ => ([], [], [])) (fun _ => [[]]) [[s]] ld [s] 0 2 [] []
    id id id id [1] [2] (by decide)
  exact ⟨h.1, h.2.1, h.2.2.2.2⟩

theorem unpackAux_lengths (L : List (Surface × ((Nat × Nat) × (Nat × Nat)))) :
    ∀ (gvec gsvec gdvec y : List ℚ) (wp wpan wwake : Nat)
      (F : List Grid3) (G GD GS : List Grid2),
      unpackAux gvec gsvec gdvec y L wp wpan wwake = some (F, G, GD, GS) →
      F.length = L.length ∧ G.length = L.length
        ∧ GD.length = L.length ∧ GS.length = L.length := by
  induction L with
  | nil =>
      intro gvec gsvec gdvec y wp wpan wwake F G GD GS h
      injection h with h
      simp only [Prod.mk.injEq] at h
      obtain ⟨hF, hG, hGD, hGS⟩ := h
      simp [← hF, ← hG, ← hGD, ← hGS]
  | cons e rest ih =>
      intro gvec gsvec gdvec y wp wpan wwake F G GD GS h
      obtain ⟨s, dg, dw⟩ := e
      simp only [unpackAux, Option.bind_eq_bind, Option.bind_eq_some] at h
      obtain ⟨fS, _, h⟩ := h
      obtain ⟨gS, _, h⟩ := h
      obtain ⟨gdS, _, h⟩ := h
      obtain ⟨gsS, _, h⟩ := h
      obtain ⟨⟨F2, G2, GD2, GS2⟩, hrec, heq⟩ := h
      obtain ⟨h1, h2, h3, h4⟩ := ih _ _ _ _ _ _ _ _ _ _ _ hrec
      simp only [Prod.mk.injEq] at heq
      obtain ⟨hFe, hGe, hGDe, hGSe⟩ := heq
      simp_all

theorem write_results_preserves (ts : List Surface) :
    ∀ (F : List Grid3) (G GD GS : List Grid2),
      F.length = ts.length → G.length = ts.length → GD.length = ts.length →
      GS.length = ts.length →
      (write_results ts F G GD GS).map (fun s => s.zeta) = ts.map (fun s => s.zeta)
      ∧ (write_results ts F G GD GS).map (fun s => s.zeta_dot)
          = ts.map (fun s => s.zeta_dot) := by
  induction ts with
  | nil => intro F G GD GS _ _ _ _; simp [write_results]
  | cons s ts2 ih =>
      intro F G GD GS hF hG hGD hGS
      match F, G, GD, GS with
      | [], _, _, _ => simp at hF
      | _ :: _, [], _, _ => simp at hG
      | _ :: _, _ :: _, [], _ => simp at hGD
      | _ :: _, _ :: _, _ :: _, [] => simp at hGS
      | f :: F2, g :: G2, gd :: GD2, gs :: GS2 =>
          obtain ⟨ih1, ih2⟩ := ih F2 G2 GD2 GS2 (by simpa using hF) (by simpa using hG)
            (by simpa using hGD) (by simpa using hGS)
          simp only [write_results, List.map_cons]
          exact ⟨congrArg _ ih1, congrArg _ ih2⟩

/-- C9 (amended): a successful `run` call never mutates the stored reference
triple (the returned `linear` dictionary is the input one, and the operator is
only read), and of the current snapshot it overwrites only `u_ext` (via the
velocity generator), `forces`, `gamma`, `gamma_dot` and `gamma_star`: the
per-surface `zeta` and `zeta_dot` grids are returned unchanged. -/
theorem run_preserves_linear_and_grid
    (solve_step : List ℚ → Option (List ℚ) → List ℚ → Except String (List ℚ × List ℚ))
    (unpack_state : List ℚ → List ℚ → List ℚ × List ℚ × List ℚ)
    (generate : List Surface → List Grid3)
    (timestep_info : List (List Surface)) (linear : AeroLinear)
    (ts : List Surface) (dt : ℚ) (io : Int) (rp : Bool)
    (ad ads : List (Nat × Nat)) (l : AeroLinear) (ts2 : List Surface)
    (hgen : (generate ts).length = ts.length)
    (had : ad.length = ts.length) (hads : ads.length = ts.length)
    (hok : run solve_step unpack_state generate timestep_info linear (some ts) dt io rp ad ads
      = .ok (l, ts2)) :
    l = linear
    ∧ ts2.map (fun s => s.zeta) = ts.map (fun s => s.zeta)
    ∧ ts2.map (fun s => s.zeta_dot) = ts.map (fun s => s.zeta_dot) := by
  rw [run_some_unfold] at hok
  rcases hdu : input_delta_m1 rp timestep_info linear.u_0 with msg | du_m1 <;>
    rw [hdu] at hok
  · cases hok
  have hok2 : (do
      let (dx_n, dy_n) ← solve_step
        (vsub (state_m1 timestep_info (set_u_ext ts (generate ts)) dt io) linear.x_0)
        du_m1
        (vsub (pack_input_vector (set_u_ext ts (generate ts))) linear.u_0)
      match unpack_ss_vectors unpack_state (vadd linear.y_0 dy_n) (vadd linear.x_0 dx_n)
          (pack_input_vector (set_u_ext ts (generate ts))) (set_u_ext ts (generate ts))
          ad ads with
      | none => Except.error "ValueError: cannot reshape"
      | some (forces, gamma, gamma_dot, gamma_star) =>
          Except.ok (linear,
            write_results (set_u_ext ts (generate ts)) forces gamma gamma_dot gamma_star))
      = Except.ok (l, ts2) := hok
  rcases hs : solve_step
      (vsub (state_m1 timestep_info (set_u_ext ts (generate ts)) dt io) linear.x_0)
      du_m1
      (vsub (pack_input_vector (set_u_ext ts (generate ts))) linear.u_0) with e | p <;>
    rw [hs] at hok2
  · cases hok2
  obtain ⟨dx_n, dy_n⟩ := p
  have hok3 : (match unpack_ss_vectors unpack_state (vadd linear.y_0 dy_n)
      (vadd linear.x_0 dx_n) (pack_input_vector (set_u_ext ts (generate ts)))
      (set_u_ext ts (generate ts)) ad ads with
      | none => Except.error "ValueError: cannot reshape"
      | some (forces, gamma, gamma_dot, gamma_star) =>
          Except.ok (linear,
            write_results (set_u_ext ts (generate ts)) forces gamma gamma_dot gamma_star))
      = Except.ok (l, ts2) := hok2
  rcases hu : unpack_ss_vectors unpack_state (vadd linear.y_0 dy_n) (vadd linear.x_0 dx_n)
      (pack_input_vector (set_u_ext ts (generate ts))) (set_u_ext ts (generate ts))
      ad ads with _ | res <;> rw [hu] at hok3
  · cases hok3
  obtain ⟨F, G, GD, GS⟩ := res
  have hok4 : (Except.ok (linear, write_results (set_u_ext ts (generate ts)) F G GD GS)
      : Except String (AeroLinear × List Surface)) = Except.ok (l, ts2) := hok3
  injection hok4 with h5
  have hl : linear = l := congrArg Prod.fst h5
  have hts : write_results (set_u_ext ts (generate ts)) F G GD GS = ts2 :=
    congrArg Prod.snd h5
  obtain ⟨gv, gsv, gdv, hE⟩ : ∃ gv gsv gdv,
      unpack_state (vadd linear.x_0 dx_n) (pack_input_vector (set_u_ext ts (generate ts)))
        = (gv, gsv, gdv) := ⟨_, _, _, rfl⟩
  rw [unpack_ss_vectors, hE] at hu
  have hu2 : unpackAux gv gsv gdv (vadd linear.y_0 dy_n)
      ((set_u_ext ts (generate ts)).zip (ad.zip ads)) 0 0 0 = some (F, G, GD, GS) := hu
  have hzl : ((set_u_ext ts (generate ts)).zip (ad.zip ads)).length = ts.length := by
    rw [List.length_zip, List.length_zip, set_u_ext_length ts (generate ts) hgen, had, hads]
    simp
  obtain ⟨hF, hG, hGD, hGS⟩ := unpackAux_lengths _ _ _ _ _ _ _ _ _ _ _ _ hu2
  rw [hzl] at hF hG hGD hGS
  have hts1 : (set_u_ext ts (generate ts)).length = ts.length :=
    set_u_ext_length ts (generate ts) hgen
  obtain ⟨hw1, hw2⟩ := write_results_preserves (set_u_ext ts (generate ts)) F G GD GS
    (by rw [hF, hts1]) (by rw [hG, hts1]) (by rw [hGD, hts1]) (by rw [hGS, hts1])
  have hz1 : (set_u_ext ts (generate ts)).map (fun s => s.zeta) = ts.map (fun s => s.zeta) :=
    set_u_ext_map (fun s => s.zeta) (fun _ _ => rfl) ts (generate ts) hgen
  have hz2 : (set_u_ext ts (generate ts)).map (fun s => s.zeta_dot)
      = ts.map (fun s => s.zeta_dot) :=
    set_u_ext_map (fun s => s.zeta_dot) (fun _ _ => rfl) ts (generate ts) hgen
  refine ⟨hl.symm, ?_, ?_⟩
  · rw [← hts, hw1, hz1]
  · rw [← hts, hw2, hz2]

/-- Counterexample for C9 as stated: `run` also overwrites the current
snapshot's `u_ext` field (the velocity generator is invoked with
`override = True`), not only `forces`, `gamma`, `gamma_dot` and `gamma_star`:
here a successful `run` returns the snapshot with `u_ext` changed from `[]` to
`[[[1]]]`. -/
theorem run_overwrites_u_ext_counterexample :
    let s : Surface := { zeta := [], zeta_dot := [], u_ext := [], gamma := [],
                         gamma_dot := [], gamma_star := [], forces := [] }
    let ld : AeroLinear := { x_0 := [], u_0 := [], y_0 := [] }
    run (fun _ _ _ => .ok ([], [])) (fun _ _ => ([], [], [])) (fun _ => [[[[1]]]])
        [] ld (some [s]) 0 2 false [(0, 0)] [(0, 0)]
      = .ok (ld, [{ s with u_ext := [[[1]]] }])
    ∧ s.u_ext ≠ [[[1]]] := by
  intro s ld
  exact ⟨rfl, by decide⟩

/-- Witness for C9 (amended) at a concrete successful `run` call. -/
theorem run_preserves_linear_and_grid_witness :
    let s : Surface := { zeta := [], zeta_dot := [], u_ext := [], gamma := [],
                         gamma_dot := [], gamma_star := [], forces := [] }
    let ld : AeroLinear := { x_0 := [], u_0 := [], y_0 := [] }
    ld = ld
    ∧ ([{ s with u_ext := [[[1]]] }] : List Surface).map (fun q => q.zeta)
        = [s].map (fun q => q.zeta)
    ∧ ([{ s with u_ext := [[[1]]] }] : List Surface).map (fun q => q.zeta_dot)
        = [s].map (fun q => q.zeta_dot) := by
  intro s ld
  exact run_preserves_linear_and_grid (fun _ _ _ => .ok ([], []))
    (fun _ _ => ([], [], [])) (fun _ => [[[[1]]]]) [] ld [s] 0 2 false
    [(0, 0)] [(0, 0)] ld [{ s with u_ext := [[[1]]] }]
    (by decide) (by decide) (by decide) rfl
